import Mathlib

/-!
Shallow embedding of the authentication/authorization core of the
`rest-api-server` repository: the in-memory `User` model
(`src/models/User.js`, whose source is carried in the repo's test bundle),
the auth routes (`src/routes/auth.js`), the user routes
(`src/routes/users.js`) and the error-mapping middleware
(`src/middleware/errorHandler.js`).

Modelling conventions:
* JS objects sent by `res.json` whose key set matters (the user views)
  are association lists `Obj = List (String × JVal)`;
* timestamps (`new Date().toISOString()`) are an abstract clock value
  `now : Nat` passed explicitly;
* `bcryptjs` is modelled by a hash that embeds the salt and the
  plaintext, with `compare` succeeding exactly when the plaintext
  matches the one embedded in the stored hash;
* `jsonwebtoken` issuance is modelled by the claims the route signs
  (`{userId, username, role}`); signature/expiry checking is not needed
  by any claim settled here;
* JS `parseInt` on a route/query string is `parseIntJS : String → Option Int`
  with `none` playing the role of `NaN` (`NaN === x` is false for all `x`,
  including `NaN` itself).
-/

/-- JSON-ish atomic values appearing in emitted user objects. -/
inductive JVal where
  | str : String → JVal
  | num : Int → JVal
deriving Repr, DecidableEq

/-- A JS object as emitted by `res.json`, as an association list. -/
abbrev Obj := List (String × JVal)

/-- JS `parseInt(s)` (radix 10): skip leading spaces, optional sign, longest
digit run; `none` models `NaN` (no digits at all). -/
def parseIntJS (s : String) : Option Int :=
  let cs := s.data.dropWhile (fun c => c = ' ')
  let signAndRest : Int × List Char :=
    match cs with
    | '-' :: t => (-1, t)
    | '+' :: t => (1, t)
    | t => (1, t)
  let ds := signAndRest.2.takeWhile (fun c => c.isDigit)
  if ds.isEmpty then none
  else some (signAndRest.1 * (ds.foldl (fun a c => a * 10 + (c.toNat - 48)) 0 : Nat))

/-- Lift of `parseInt` to a possibly-absent query parameter
(`parseInt(undefined)` is `NaN`). -/
def parseIntQ : Option String → Option Int
  | none => none
  | some s => parseIntJS s

/-- JS `x || d` for a number `x` that may be `NaN` (`none`) or `0`: both are
falsy and fall through to the default. -/
def jsOrInt (v : Option Int) (d : Int) : Int :=
  match v with
  | none => d
  | some k => if k = 0 then d else k

/-- JS truthiness of a possibly-absent string field (`undefined` and `""` are
falsy). -/
def truthyS : Option String → Bool
  | none => false
  | some s => !(s == "")

/-- Model of `bcrypt.hash(password, saltRounds)`: the digest records the salt
and the plaintext (one-way-ness is irrelevant to the claims; what matters is
that distinct salts give distinct digests and `compare` is a predicate). -/
def bcryptHash (salt plaintext : String) : String :=
  "$2a$10$" ++ salt ++ "$" ++ plaintext

/-- Model of `bcrypt.compare(plaintext, hash)`: succeeds exactly when the
plaintext is the one embedded after the digest's last salt separator. -/
def bcryptCompare (plaintext h : String) : Bool :=
  (h.data.reverse.takeWhile (fun c => !(c == '$'))).reverse == plaintext.data

/-- A stored user record (`src/models/User.js`); `password` holds the bcrypt
hash, `createdAt`/`updatedAt` are abstract clock values. -/
structure UserRec where
  id : Nat
  username : String
  email : String
  password : String
  role : String
  createdAt : Nat
  updatedAt : Option Nat
deriving Repr, DecidableEq

/-- The password-stripped view produced by the destructure
`const { password, ...userWithoutPassword } = user`. -/
structure PublicUser where
  id : Nat
  username : String
  email : String
  role : String
  createdAt : Nat
  updatedAt : Option Nat
deriving Repr, DecidableEq

/-- Strip the password from a stored record. -/
def UserRec.toPublic (u : UserRec) : PublicUser :=
  ⟨u.id, u.username, u.email, u.role, u.createdAt, u.updatedAt⟩

/-- Serialization of a public view as the JS object `res.json` emits; the
`updatedAt` key is present only once an update has set it, as in the source. -/
def PublicUser.toObj (u : PublicUser) : Obj :=
  [("id", .num u.id), ("username", .str u.username), ("email", .str u.email),
   ("role", .str u.role), ("createdAt", .num u.createdAt)]
  ++ (match u.updatedAt with
      | some t => [("updatedAt", .num t)]
      | none => [])

/-- The in-memory store: the `users` array and the `nextUserId` counter of
`src/models/User.js`. -/
structure Store where
  users : List UserRec
  nextUserId : Nat
deriving Repr, DecidableEq

/-- The record pre-seeded in `src/models/User.js` (stored digest is the
bcrypt hash of `password123`). -/
def seededAdmin : UserRec :=
  { id := 1, username := "admin", email := "admin@example.com",
    password := "$2a$10$XOPbrlUPQdwdJUpSrIF6X.LbE14qsMmKGhM1A8W9iqaG3vv1BD7WS",
    role := "admin", createdAt := 0, updatedAt := none }

/-- The store at module load: `users = [admin record]`, `nextUserId = 2`. -/
def initialStore : Store := ⟨[seededAdmin], 2⟩

/-- Does a stored record's numeric `id` strictly equal the `parseInt` result
`pid` (`u.id === parseInt(id)`)? `none` (`NaN`) equals nothing. -/
def idMatches (pid : Option Int) (u : UserRec) : Bool :=
  decide (pid = some (u.id : Int))

/-- Model of the `findIndex` + in-place assignment of `User.updateById`: replace the first
record satisfying `p` by `f` of it, returning the updated record (if any) and
the new list. -/
def updateFirst (p : UserRec → Bool) (f : UserRec → UserRec) :
    List UserRec → Option UserRec × List UserRec
  | [] => (none, [])
  | u :: rest =>
    if p u then (some (f u), f u :: rest)
    else
      let r := updateFirst p f rest
      (r.1, u :: r.2)

/-- Model of the `findIndex` + `splice(idx, 1)` of `User.deleteById`: remove the first
record satisfying `p`, returning whether one was found and the new list. -/
def removeFirst (p : UserRec → Bool) : List UserRec → Bool × List UserRec
  | [] => (false, [])
  | u :: rest =>
    if p u then (true, rest)
    else
      let r := removeFirst p rest
      (r.1, u :: r.2)

namespace User

/-- Model of `User.findAll()`: every record, password stripped. -/
def findAll (s : Store) : List Obj :=
  s.users.map (fun u => u.toPublic.toObj)

/-- Core of `User.findById(id)` after `parseInt`: first record with that id,
password stripped. -/
def findByIdP (s : Store) (pid : Option Int) : Option Obj :=
  (s.users.find? (idMatches pid)).map (fun u => u.toPublic.toObj)

/-- Model of `User.findById(id)` on a route-parameter string. -/
def findById (s : Store) (id : String) : Option Obj :=
  findByIdP s (parseIntJS id)

/-- Model of `User.findByEmail(email)`: internal lookup, returns the full record. -/
def findByEmail (s : Store) (email : String) : Option UserRec :=
  s.users.find? (fun u => u.email == email)

/-- Model of `User.findByUsername(username)`: internal lookup, full record. -/
def findByUsername (s : Store) (username : String) : Option UserRec :=
  s.users.find? (fun u => u.username == username)

/-- Data passed to `User.create` (`password` is already the hash; `role` is
absent on the registration path). -/
structure CreateData where
  username : String
  email : String
  password : String
  role : Option String
deriving Repr, DecidableEq

/-- Model of `User.create(userData)`: assign `nextUserId` (post-incremented), default
the role to `"user"` when `userData.role` is falsy, push, and return the
password-stripped view. -/
def create (s : Store) (d : CreateData) (now : Nat) : PublicUser × Store :=
  let newUser : UserRec :=
    { id := s.nextUserId, username := d.username, email := d.email,
      password := d.password,
      role := match d.role with
              | some r => if r = "" then "user" else r
              | none => "user",
      createdAt := now, updatedAt := none }
  (newUser.toPublic, ⟨s.users ++ [newUser], s.nextUserId + 1⟩)

/-- The patch object `updateData` built by the PUT route: exactly the keys it
chose to set. -/
structure UpdateData where
  username : Option String
  email : Option String
  password : Option String
deriving Repr, DecidableEq

/-- The spread `{ ...user, ...userData, updatedAt: now }`: present keys
overwrite, `updatedAt` is always set; `id`, `role` and `createdAt` are not
keys of `userData`, hence survive. -/
def applyPatch (d : UpdateData) (now : Nat) (u : UserRec) : UserRec :=
  { u with
    username := d.username.getD u.username,
    email := d.email.getD u.email,
    password := d.password.getD u.password,
    updatedAt := some now }

/-- Model of `User.updateById(id, userData)` (id already parsed): update the first
record with that id, returning its stripped view, or `none` when absent. -/
def updateById (s : Store) (pid : Option Int) (d : UpdateData) (now : Nat) :
    Option PublicUser × Store :=
  let r := updateFirst (idMatches pid) (applyPatch d now) s.users
  (r.1.map UserRec.toPublic, ⟨r.2, s.nextUserId⟩)

/-- Model of `User.deleteById(id)` (id already parsed): remove the first record with
that id, reporting whether one existed. -/
def deleteById (s : Store) (pid : Option Int) : Bool × Store :=
  let r := removeFirst (idMatches pid) s.users
  (r.1, ⟨r.2, s.nextUserId⟩)

/-- The aggregate counts of `User.getUserStats()`. -/
structure Stats where
  totalUsers : Nat
  adminUsers : Nat
  regularUsers : Nat
deriving Repr, DecidableEq

/-- Model of `User.getUserStats()`. -/
def getUserStats (s : Store) : Stats :=
  ⟨s.users.length,
   (s.users.filter (fun u => u.role == "admin")).length,
   (s.users.filter (fun u => u.role == "user")).length⟩

end User

/-- The claims `authenticateToken` attaches to `req.user` from a verified
bearer token. -/
structure Claims where
  userId : Nat
  username : String
  role : String
deriving Repr, DecidableEq

/-- The claims the routes sign into a JWT
(`jwt.sign({ userId, username, role }, ...)`); signature and expiry metadata
are abstracted away. -/
structure TokenClaims where
  userId : Nat
  username : String
  role : String
deriving Repr, DecidableEq

/-- An HTTP response: either `status` + success body, or `status` + the
`{error, message}` pair every error response carries. -/
inductive Resp (α : Type) where
  | ok : Nat → α → Resp α
  | err : Nat → String → String → Resp α
deriving Repr, DecidableEq

/-- Success body of register/login: `{message, token, user}`. -/
structure AuthBody where
  message : String
  token : TokenClaims
  user : Obj
deriving Repr, DecidableEq

/-- Handler of `POST /api/auth/register` (src/routes/auth.js): email conflict first,
then username conflict, then hash + create + sign. -/
def register (s : Store) (username email password salt : String) (now : Nat) :
    Resp AuthBody × Store :=
  match User.findByEmail s email with
  | some _ =>
      (.err 400 "User already exists" "A user with this email already exists", s)
  | none =>
    match User.findByUsername s username with
    | some _ =>
        (.err 400 "User already exists" "A user with this username already exists", s)
    | none =>
      let hashedPassword := bcryptHash salt password
      let r := User.create s ⟨username, email, hashedPassword, none⟩ now
      let newUser := r.1
      (.ok 201 ⟨"User registered successfully",
                ⟨newUser.id, newUser.username, newUser.role⟩,
                newUser.toObj⟩, r.2)

/-- Handler of `POST /api/auth/login` (src/routes/auth.js): absent email and failed
password comparison produce the same 401 body. -/
def login (s : Store) (email password : String) : Resp AuthBody :=
  match User.findByEmail s email with
  | none => .err 401 "Invalid credentials" "Invalid email or password"
  | some user =>
    if bcryptCompare password user.password then
      .ok 200 ⟨"Login successful",
               ⟨user.id, user.username, user.role⟩,
               user.toPublic.toObj⟩
    else .err 401 "Invalid credentials" "Invalid email or password"

/-- Handler of `GET /api/auth/me` (src/routes/auth.js): look up the verified token's
own `userId` (a number, so `parseInt` inside `findById` is the identity). -/
def getMe (s : Store) (c : Claims) : Resp Obj :=
  match User.findByIdP s (some (c.userId : Int)) with
  | none => .err 404 "User not found" "User profile not found"
  | some u => .ok 200 u

/-- JS `Array.prototype.slice(start, end)` on integer arguments: negative
indices count from the end, both are clamped to `[0, length]`. -/
def jsSlice {α : Type} (l : List α) (start stop : Int) : List α :=
  let len : Int := l.length
  let norm : Int → Nat := fun i => if i < 0 then (max (len + i) 0).toNat else (min i len).toNat
  (l.take (norm stop)).drop (norm start)

/-- Model of `Math.ceil(a / b)` for a natural numerator, as computed for `totalPages`
(the route never passes `b = 0`: `parseInt(..) || 10` is never `0`). -/
def ceilDivJS (a : Nat) (b : Int) : Int :=
  if 0 < b then ((a + b.toNat - 1) / b.toNat : Nat)
  else if b < 0 then -((a / b.natAbs : Nat) : Int)
  else 0

/-- Success body of `GET /api/users`: the page plus the pagination block. -/
structure ListBody where
  users : List Obj
  page : Int
  limit : Int
  total : Nat
  totalPages : Int
deriving Repr, DecidableEq

/-- Handler of `GET /api/users` (src/routes/users.js): admin only; offset pagination
over `User.findAll()` via `slice((page-1)*limit, page*limit)`. -/
def listUsers (s : Store) (c : Claims) (pageQ limitQ : Option String) :
    Resp ListBody :=
  if c.role ≠ "admin" then .err 403 "Forbidden" "Admin access required"
  else
    let page := jsOrInt (parseIntQ pageQ) 1
    let limit := jsOrInt (parseIntQ limitQ) 10
    let users := User.findAll s
    let startIndex := (page - 1) * limit
    let endIndex := page * limit
    .ok 200 ⟨jsSlice users startIndex endIndex, page, limit, users.length,
             ceilDivJS users.length limit⟩

/-- Handler of `GET /api/users/:id` (src/routes/users.js): non-admins may only read
their own id; then 404 or the stripped record. -/
def getUserById (s : Store) (c : Claims) (idStr : String) : Resp Obj :=
  let pid := parseIntJS idStr
  if c.role ≠ "admin" ∧ pid ≠ some (c.userId : Int) then
    .err 403 "Forbidden" "You can only access your own profile"
  else
    match User.findByIdP s pid with
    | none => .err 404 "User not found" "User with the specified ID does not exist"
    | some u => .ok 200 u

/-- The JSON body of `PUT /api/users/:id` as the handler sees it; a `role`
key may be present in the request but the handler never reads it
(`const { username, email, password } = req.body`). -/
structure UpdateBody where
  username : Option String
  email : Option String
  password : Option String
  role : Option String
deriving Repr, DecidableEq

/-- Condition `existingUser && existingUser.id !== parseInt(id)` for the username
conflict check of the PUT route. -/
def usernameClash (s : Store) (pid : Option Int) (un : String) : Bool :=
  match User.findByUsername s un with
  | some ex => !(decide (pid = some (ex.id : Int)))
  | none => false

/-- Same for the email conflict check. -/
def emailClash (s : Store) (pid : Option Int) (em : String) : Bool :=
  match User.findByEmail s em with
  | some ex => !(decide (pid = some (ex.id : Int)))
  | none => false

/-- Success body of `PUT /api/users/:id`: `{message, user}`. -/
structure UpdateOk where
  message : String
  user : Obj
deriving Repr, DecidableEq

/-- Handler of `PUT /api/users/:id` (src/routes/users.js): ownership/admin gate, then
username and email conflict checks, then rehash of a present password, then
`User.updateById`. -/
def updateUser (s : Store) (c : Claims) (idStr : String) (b : UpdateBody)
    (salt : String) (now : Nat) : Resp UpdateOk × Store :=
  let pid := parseIntJS idStr
  if c.role ≠ "admin" ∧ pid ≠ some (c.userId : Int) then
    (.err 403 "Forbidden" "You can only update your own profile", s)
  else if truthyS b.username ∧ usernameClash s pid (b.username.getD "") then
    (.err 400 "Username already exists" "A user with this username already exists", s)
  else if truthyS b.email ∧ emailClash s pid (b.email.getD "") then
    (.err 400 "Email already exists" "A user with this email already exists", s)
  else
    let upd : User.UpdateData :=
      { username := if truthyS b.username then b.username else none,
        email := if truthyS b.email then b.email else none,
        password := if truthyS b.password then some (bcryptHash salt (b.password.getD "")) else none }
    let r := User.updateById s pid upd now
    match r.1 with
    | none => (.err 404 "User not found" "User with the specified ID does not exist", r.2)
    | some u => (.ok 200 ⟨"User updated successfully", u.toObj⟩, r.2)

/-- Success body of `DELETE /api/users/:id`: `{message}`. -/
structure DeleteOk where
  message : String
deriving Repr, DecidableEq

/-- Handler of `DELETE /api/users/:id` (src/routes/users.js): admin only, self-deletion
blocked with a 400, then `User.deleteById`. -/
def deleteUser (s : Store) (c : Claims) (idStr : String) :
    Resp DeleteOk × Store :=
  let pid := parseIntJS idStr
  if c.role ≠ "admin" then
    (.err 403 "Forbidden" "Admin access required to delete users", s)
  else if pid = some (c.userId : Int) then
    (.err 400 "Invalid operation" "You cannot delete your own account", s)
  else
    let r := User.deleteById s pid
    if r.1 then (.ok 200 ⟨"User deleted successfully"⟩, r.2)
    else (.err 404 "User not found" "User with the specified ID does not exist", r.2)

/-- Handler body of `GET /api/users/stats` (src/routes/users.js, lines
362-381): admin only, then `User.getUserStats()`. -/
def getStats (s : Store) (c : Claims) : Resp User.Stats :=
  if c.role ≠ "admin" then .err 403 "Forbidden" "Admin access required"
  else .ok 200 (User.getUserStats s)

/-- Where a GET under `/api/users` lands after Express route matching. -/
inductive UsersGetResult where
  | fromList : Resp ListBody → UsersGetResult
  | fromGetById : Resp Obj → UsersGetResult
  | fromStats : Resp User.Stats → UsersGetResult
  | routeNotFound : UsersGetResult
deriving Repr, DecidableEq

/-- Express dispatch of a GET under `/api/users` for an authenticated
requester, in the registration order of src/routes/users.js: `'/'`, then
`'/:id'`, then (last) `'/stats'`. A one-segment path always matches the
earlier `'/:id'` pattern, so the `'/stats'` handler is unreachable and
`fromStats` is never produced. -/
def usersGet (s : Store) (c : Claims) (path : List String)
    (pageQ limitQ : Option String) : UsersGetResult :=
  match path with
  | [] => .fromList (listUsers s c pageQ limitQ)
  | [seg] => .fromGetById (getUserById s c seg)
  | _ => .routeNotFound

/-- A thrown JS error as seen by the error middleware: its `name`,
`message`, optional `statusCode`, and the messages of `err.errors` for
validation errors. -/
structure JsError where
  name : String
  message : String
  statusCode : Option Nat
  errorMessages : List String
deriving Repr, DecidableEq

/-- JS truthiness of a possibly-absent numeric `statusCode` (`0` falsy). -/
def truthyN : Option Nat → Bool
  | none => false
  | some n => !(n == 0)

/-- What the error middleware sends: status, the `error` message, and
optional `details`. The `stack` field (development mode only) is omitted
from the model; no claim concerns it. -/
structure ErrOut where
  status : Nat
  error : String
  details : Option (List String)
deriving Repr, DecidableEq

/-- Model of `src/middleware/errorHandler.js`: a 500 default successively overridden
by the `ValidationError`, `JsonWebTokenError`, `TokenExpiredError` and
custom-`statusCode` cases, in that order. -/
def errorHandler (e : JsError) : ErrOut :=
  let s0 : Nat × String × Option (List String) :=
    (500, "Internal Server Error", none)
  let s1 := if e.name = "ValidationError"
            then (400, "Validation Error", some e.errorMessages) else s0
  let s2 := if e.name = "JsonWebTokenError"
            then (401, "Invalid token", s1.2.2) else s1
  let s3 := if e.name = "TokenExpiredError"
            then (401, "Token expired", s2.2.2) else s2
  let s4 := if truthyN e.statusCode
            then ((e.statusCode.getD 0), e.message, s3.2.2) else s3
  ⟨s4.1, s4.2.1, s4.2.2⟩

/-- The store of §8's scenario: the pre-seeded admin plus a registered
regular user `alice`. -/
def aliceStore : Store :=
  (register initialStore "alice" "alice@x.com" "Secret123" "sAlice" 1).2

/-- The user objects serialized inside a register/login response. -/
def authUserObjs : Resp AuthBody → List Obj
  | .ok _ b => [b.user]
  | .err _ _ _ => []

/-- The user objects serialized inside a response whose body is a single
user view (`GET /auth/me`, `GET /users/:id`). -/
def bareUserObjs : Resp Obj → List Obj
  | .ok _ b => [b]
  | .err _ _ _ => []

/-- The user objects serialized inside a `GET /users` response. -/
def listUserObjs : Resp ListBody → List Obj
  | .ok _ b => b.users
  | .err _ _ _ => []

/-- The user objects serialized inside a `PUT /users/:id` response. -/
def updateUserObjs : Resp UpdateOk → List Obj
  | .ok _ b => [b.user]
  | .err _ _ _ => []

/-- Number of stored records holding a given email. -/
def countByEmail (s : Store) (em : String) : Nat :=
  (s.users.filter (fun u => u.email == em)).length

/-! ### Supporting lemmas -/

/-- Characterization of `removeFirst` via the standard list operations. -/
theorem removeFirst_eq (p : UserRec → Bool) (l : List UserRec) :
    removeFirst p l = (l.any p, l.eraseP p) := by
  induction l with
  | nil => rfl
  | cons u rest ih =>
    by_cases h : p u
    · simp [removeFirst, h]
    · simp [removeFirst, h, ih]

/-- Since `applyPatch` never touches `id` or `role`, so `updateFirst` with it
preserves the id/role projection of the whole list. -/
theorem updateFirst_map_id_role (p : UserRec → Bool) (d : User.UpdateData)
    (now : Nat) (l : List UserRec) :
    ((updateFirst p (User.applyPatch d now) l).2).map (fun u => (u.id, u.role)) =
      l.map (fun u => (u.id, u.role)) := by
  induction l with
  | nil => rfl
  | cons u rest ih =>
    by_cases h : p u
    · simp [updateFirst, h, User.applyPatch]
    · simp [updateFirst, h, ih]

/-- A `find?` that fails on the first list skips it under append. -/
theorem find?_append_of_none {α : Type} {p : α → Bool} {l₁ : List α}
    (l₂ : List α) (h : l₁.find? p = none) :
    (l₁ ++ l₂).find? p = l₂.find? p := by
  rw [List.find?_eq_none] at h
  induction l₁ with
  | nil => rfl
  | cons a t ih =>
    have ha : ¬ p a := h a (by simp)
    rw [List.cons_append, List.find?_cons_of_neg _ ha,
        ih (fun x hx => h x (by simp [hx]))]

/-- No emitted public view carries a `password` key. -/
theorem password_key_not_emitted (pu : PublicUser) :
    "password" ∉ pu.toObj.map Prod.fst := by
  cases h : pu.updatedAt <;> simp [PublicUser.toObj, h]

/-- Membership in a JS slice implies membership in the array. -/
theorem mem_of_mem_jsSlice {α : Type} {o : α} {l : List α} {a b : Int}
    (h : o ∈ jsSlice l a b) : o ∈ l :=
  List.take_subset _ _ (List.drop_subset _ _ h)

/-! ### Claim theorems -/

/-- Claim C9: the error-mapping boundary distinguishes token-verification
failures for client messaging — a `TokenExpiredError` maps to status 401
with message `Token expired`, a `JsonWebTokenError` (invalid token) maps to
status 401 with message `Invalid token` — and both map to 401. -/
theorem errorHandler_distinguishes_token_failures (e : JsError)
    (hs : e.statusCode = none) :
    (e.name = "TokenExpiredError" →
       (errorHandler e).status = 401 ∧ (errorHandler e).error = "Token expired") ∧
    (e.name = "JsonWebTokenError" →
       (errorHandler e).status = 401 ∧ (errorHandler e).error = "Invalid token") := by
  constructor <;> intro hn <;> simp [errorHandler, hn, hs, truthyN]

/-- Witness for C9 at the concrete errors `jsonwebtoken` throws. -/
theorem errorHandler_distinguishes_token_failures_witness :
    ((errorHandler ⟨"TokenExpiredError", "jwt expired", none, []⟩).status = 401 ∧
     (errorHandler ⟨"TokenExpiredError", "jwt expired", none, []⟩).error = "Token expired") ∧
    ((errorHandler ⟨"JsonWebTokenError", "invalid signature", none, []⟩).status = 401 ∧
     (errorHandler ⟨"JsonWebTokenError", "invalid signature", none, []⟩).error = "Invalid token") :=
  ⟨(errorHandler_distinguishes_token_failures
      ⟨"TokenExpiredError", "jwt expired", none, []⟩ rfl).1 rfl,
   (errorHandler_distinguishes_token_failures
      ⟨"JsonWebTokenError", "invalid signature", none, []⟩ rfl).2 rfl⟩

/-- Claim C3: for every store, `Login` with an email matching no record and
`Login` with an existing email but a non-matching password return the
identical error result — status 401 with the same `error` and `message`
strings — so the response does not reveal whether the account exists. -/
theorem login_no_account_existence_leak (s : Store) (e₁ p₁ e₂ p₂ : String)
    (u : UserRec) (h₁ : User.findByEmail s e₁ = none)
    (h₂ : User.findByEmail s e₂ = some u)
    (h₃ : bcryptCompare p₂ u.password = false) :
    login s e₁ p₁ = login s e₂ p₂ ∧
    login s e₁ p₁ = .err 401 "Invalid credentials" "Invalid email or password" := by
  simp [login, h₁, h₂, h₃]

/-- Witness for C3: unknown email vs the seeded admin's email with a wrong
password. -/
theorem login_no_account_existence_leak_witness :
    login initialStore "nobody@example.com" "whatever" =
      login initialStore "admin@example.com" "wrongpass" ∧
    login initialStore "nobody@example.com" "whatever" =
      .err 401 "Invalid credentials" "Invalid email or password" :=
  login_no_account_existence_leak initialStore "nobody@example.com" "whatever"
    "admin@example.com" "wrongpass" seededAdmin (by decide) (by decide) (by decide)

/-- Claim C7: a requester that is neither admin nor the owner of the target
id has every `UpdateUser` call rejected with 403 Forbidden, for every patch
body, and the store (hence the target record) is unchanged. -/
theorem updateUser_nonowner_forbidden (s : Store) (c : Claims) (idStr : String)
    (b : UpdateBody) (salt : String) (now : Nat)
    (hr : c.role ≠ "admin") (ho : parseIntJS idStr ≠ some (c.userId : Int)) :
    updateUser s c idStr b salt now =
      (.err 403 "Forbidden" "You can only update your own profile", s) := by
  simp [updateUser, hr, ho]

/-- Witness for C7: a regular user targeting someone else's id, with a patch
that even tries to set a role. -/
theorem updateUser_nonowner_forbidden_witness :
    updateUser initialStore ⟨5, "mallory", "user"⟩ "1"
        ⟨some "newname", some "new@x.com", some "Newpass1", some "admin"⟩ "s2" 7 =
      (.err 403 "Forbidden" "You can only update your own profile", initialStore) :=
  updateUser_nonowner_forbidden initialStore ⟨5, "mallory", "user"⟩ "1"
    ⟨some "newname", some "new@x.com", some "Newpass1", some "admin"⟩ "s2" 7
    (by decide) (by decide)

/-- Claim C5: `GetUserById` succeeds only when the requester is admin or owns
the target id, returning 403 Forbidden otherwise; when authorized it returns
404 if no record has the target id and the target's public view otherwise. -/
theorem getUserById_access_control (s : Store) (c : Claims) (idStr : String) :
    (c.role ≠ "admin" → parseIntJS idStr ≠ some (c.userId : Int) →
       getUserById s c idStr =
         .err 403 "Forbidden" "You can only access your own profile") ∧
    ((c.role = "admin" ∨ parseIntJS idStr = some (c.userId : Int)) →
       (s.users.find? (idMatches (parseIntJS idStr)) = none →
          getUserById s c idStr =
            .err 404 "User not found" "User with the specified ID does not exist") ∧
       (∀ r : UserRec, s.users.find? (idMatches (parseIntJS idStr)) = some r →
          getUserById s c idStr = .ok 200 r.toPublic.toObj)) := by
  refine ⟨fun hr ho => ?_, fun hauth => ⟨fun hnone => ?_, fun r hr => ?_⟩⟩
  · simp [getUserById, hr, ho]
  · have hcond : ¬ (c.role ≠ "admin" ∧ parseIntJS idStr ≠ some (c.userId : Int)) := by
      rcases hauth with h | h <;> simp [h]
    simp [getUserById, hcond, User.findByIdP, hnone]
  · have hcond : ¬ (c.role ≠ "admin" ∧ parseIntJS idStr ≠ some (c.userId : Int)) := by
      rcases hauth with h | h <;> simp [h]
    simp [getUserById, hcond, User.findByIdP, hr]

/-- Witness for C5: a regular user reading their own record succeeds with the
stripped view; reading someone else's id is 403. -/
theorem getUserById_access_control_witness :
    getUserById initialStore ⟨1, "admin", "admin"⟩ "1" =
      .ok 200 seededAdmin.toPublic.toObj ∧
    getUserById initialStore ⟨5, "mallory", "user"⟩ "1" =
      .err 403 "Forbidden" "You can only access your own profile" :=
  ⟨((getUserById_access_control initialStore ⟨1, "admin", "admin"⟩ "1").2
      (Or.inl rfl)).2 seededAdmin (by decide),
   (getUserById_access_control initialStore ⟨5, "mallory", "user"⟩ "1").1
      (by decide) (by decide)⟩

/-- Claim C6: `DeleteUser` is 403 Forbidden for every non-admin requester; an
admin targeting their own id gets the 400 validation error with the store
untouched; an admin targeting a distinct absent id gets 404 with the store
untouched; and an admin targeting a distinct existing id removes exactly the
first record with that id. -/
theorem deleteUser_rules (s : Store) (c : Claims) (idStr : String) :
    (c.role ≠ "admin" →
       deleteUser s c idStr =
         (.err 403 "Forbidden" "Admin access required to delete users", s)) ∧
    (c.role = "admin" → parseIntJS idStr = some (c.userId : Int) →
       deleteUser s c idStr =
         (.err 400 "Invalid operation" "You cannot delete your own account", s)) ∧
    (c.role = "admin" → parseIntJS idStr ≠ some (c.userId : Int) →
       (s.users.any (idMatches (parseIntJS idStr)) = false →
          deleteUser s c idStr =
            (.err 404 "User not found" "User with the specified ID does not exist", s)) ∧
       (s.users.any (idMatches (parseIntJS idStr)) = true →
          deleteUser s c idStr =
            (.ok 200 ⟨"User deleted successfully"⟩,
             ⟨s.users.eraseP (idMatches (parseIntJS idStr)), s.nextUserId⟩))) := by
  obtain ⟨us, nid⟩ := s
  refine ⟨fun hr => ?_, fun hr hself => ?_,
          fun hr hself => ⟨fun habs => ?_, fun hpres => ?_⟩⟩
  · simp [deleteUser, hr]
  · simp [deleteUser, hr, hself]
  · have : ∀ a ∈ us, ¬ idMatches (parseIntJS idStr) a := by
      simpa using habs
    simp [deleteUser, hr, hself, User.deleteById, removeFirst_eq, habs,
          List.eraseP_of_forall_not this]
  · simp [deleteUser, hr, hself, User.deleteById, removeFirst_eq, hpres]

/-- Witness for C6: the admin deleting user 2 from a two-user store removes
exactly that record; deleting their own id is the 400 business-rule error. -/
theorem deleteUser_rules_witness :
    deleteUser ⟨[seededAdmin, ⟨2, "bob", "bob@x.com", "h", "user", 1, none⟩], 3⟩
        ⟨1, "admin", "admin"⟩ "2" =
      (.ok 200 ⟨"User deleted successfully"⟩, ⟨[seededAdmin], 3⟩) ∧
    deleteUser initialStore ⟨1, "admin", "admin"⟩ "1" =
      (.err 400 "Invalid operation" "You cannot delete your own account", initialStore) :=
  ⟨by
    have h := ((deleteUser_rules
        ⟨[seededAdmin, ⟨2, "bob", "bob@x.com", "h", "user", 1, none⟩], 3⟩
        ⟨1, "admin", "admin"⟩ "2").2.2 rfl (by decide)).2 (by decide)
    simpa using h,
   (deleteUser_rules initialStore ⟨1, "admin", "admin"⟩ "1").2.1 rfl (by decide)⟩

/-- Claim C2 (divergence): with the pre-seeded admin plus one registered
regular user, the stats themselves are `{totalUsers := 2, adminUsers := 1,
regularUsers := 1}` and the stats handler would return them with 200 to an
admin requester — but Express matches `GET /users/stats` against the
`'/:id'` route registered earlier, so the request is answered by the
get-by-id handler with `id = "stats"`, whose `parseInt` is `NaN`, and the
admin receives 404 `User not found` instead of the stats. -/
theorem statsRoute_shadowed_by_idRoute :
    usersGet aliceStore ⟨1, "admin", "admin"⟩ ["stats"] none none =
      .fromGetById (.err 404 "User not found" "User with the specified ID does not exist") ∧
    getStats aliceStore ⟨1, "admin", "admin"⟩ = .ok 200 ⟨2, 1, 1⟩ ∧
    User.getUserStats aliceStore = ⟨2, 1, 1⟩ := by
  decide

/-- Claim C10: no `PUT /users/:id` call, whatever the requester and whatever
the body (including one that tries to set `role`), changes the `id` or
`role` of any stored record: the handler copies only `username`, `email`
and `password` out of the body. -/
theorem updateUser_preserves_id_and_role (s : Store) (c : Claims)
    (idStr : String) (b : UpdateBody) (salt : String) (now : Nat) :
    (updateUser s c idStr b salt now).2.users.map (fun u => (u.id, u.role)) =
      s.users.map (fun u => (u.id, u.role)) := by
  by_cases h1 : c.role ≠ "admin" ∧ parseIntJS idStr ≠ some (c.userId : Int)
  · simp [updateUser, h1]
  · by_cases h2 : truthyS b.username = true ∧
        usernameClash s (parseIntJS idStr) (b.username.getD "") = true
    · simp [updateUser, h1, h2]
    · by_cases h3 : truthyS b.email = true ∧
          emailClash s (parseIntJS idStr) (b.email.getD "") = true
      · simp [updateUser, h1, h2, h3]
      · simp only [updateUser, User.updateById, if_neg h1, if_neg h2, if_neg h3]
        split <;> simp [updateFirst_map_id_role]

/-- Claim C1: no outward-facing operation — register, login, get-profile,
get-user-by-id, list-users, update-user — ever serializes a user view
carrying the `password` key: the hash is stripped before any response is
produced. -/
theorem password_never_in_responses :
    (∀ s un em pw salt now o,
       o ∈ authUserObjs (register s un em pw salt now).1 →
       "password" ∉ o.map Prod.fst) ∧
    (∀ s em pw o, o ∈ authUserObjs (login s em pw) →
       "password" ∉ o.map Prod.fst) ∧
    (∀ s c o, o ∈ bareUserObjs (getMe s c) →
       "password" ∉ o.map Prod.fst) ∧
    (∀ s c idStr o, o ∈ bareUserObjs (getUserById s c idStr) →
       "password" ∉ o.map Prod.fst) ∧
    (∀ s c pageQ limitQ o, o ∈ listUserObjs (listUsers s c pageQ limitQ) →
       "password" ∉ o.map Prod.fst) ∧
    (∀ s c idStr b salt now o,
       o ∈ updateUserObjs (updateUser s c idStr b salt now).1 →
       "password" ∉ o.map Prod.fst) := by
  refine ⟨?_, ?_, ?_, ?_, ?_, ?_⟩
  · intro s un em pw salt now o ho
    unfold register at ho
    split at ho
    · simp [authUserObjs] at ho
    · split at ho
      · simp [authUserObjs] at ho
      · simp [authUserObjs] at ho
        subst ho
        exact password_key_not_emitted _
  · intro s em pw o ho
    unfold login at ho
    split at ho
    · simp [authUserObjs] at ho
    · split at ho
      · simp [authUserObjs] at ho
        subst ho
        exact password_key_not_emitted _
      · simp [authUserObjs] at ho
  · intro s c o ho
    unfold getMe User.findByIdP at ho
    rcases hf : s.users.find? (idMatches (some (c.userId : Int))) with _ | r <;>
      rw [hf] at ho
    · simp [bareUserObjs] at ho
    · simp [bareUserObjs] at ho
      subst ho
      exact password_key_not_emitted _
  · intro s c idStr o ho
    by_cases h1 : c.role ≠ "admin" ∧ parseIntJS idStr ≠ some (c.userId : Int)
    · simp [getUserById, h1, bareUserObjs] at ho
    · rcases hf : s.users.find? (idMatches (parseIntJS idStr)) with _ | r <;>
        simp [getUserById, User.findByIdP, if_neg h1, hf, bareUserObjs] at ho
      subst ho
      exact password_key_not_emitted _
  · intro s c pageQ limitQ o ho
    unfold listUsers at ho
    split at ho
    · simp [listUserObjs] at ho
    · simp only [listUserObjs] at ho
      have : o ∈ User.findAll s := mem_of_mem_jsSlice ho
      rcases List.mem_map.mp this with ⟨u, _, rfl⟩
      exact password_key_not_emitted _
  · intro s c idStr b salt now o ho
    by_cases h1 : c.role ≠ "admin" ∧ parseIntJS idStr ≠ some (c.userId : Int)
    · simp [updateUser, h1, updateUserObjs] at ho
    · by_cases h2 : truthyS b.username = true ∧
          usernameClash s (parseIntJS idStr) (b.username.getD "") = true
      · simp [updateUser, h1, h2, updateUserObjs] at ho
      · by_cases h3 : truthyS b.email = true ∧
            emailClash s (parseIntJS idStr) (b.email.getD "") = true
        · simp [updateUser, h1, h2, h3, updateUserObjs] at ho
        · simp only [updateUser, if_neg h1, if_neg h2, if_neg h3] at ho
          split at ho
          · simp [updateUserObjs] at ho
          · simp [updateUserObjs] at ho
            subst ho
            exact password_key_not_emitted _

/-- Witness for C1 on the get-profile operation: the pre-seeded admin's own
profile view lacks the `password` key. -/
theorem password_never_in_responses_witness :
    "password" ∉ (seededAdmin.toPublic.toObj).map Prod.fst :=
  password_never_in_responses.2.2.1 initialStore ⟨1, "admin", "admin"⟩
    seededAdmin.toPublic.toObj (by decide)

/-- Claim C4: email/username uniqueness. Register rejects with the email
conflict (checked first) or the username conflict (checked second) and
leaves the store unchanged; a fresh registration stores exactly one record
for its email and a second registration with that email fails with the email
conflict, adding nothing; `PUT /users/:id` rejects a username or email
already held by a record with a different id, leaving the store unchanged. -/
theorem uniqueness_of_email_and_username :
    (∀ s un em pw salt now u, User.findByEmail s em = some u →
       register s un em pw salt now =
         (.err 400 "User already exists" "A user with this email already exists", s)) ∧
    (∀ s un em pw salt now u, User.findByEmail s em = none →
       User.findByUsername s un = some u →
       register s un em pw salt now =
         (.err 400 "User already exists" "A user with this username already exists", s)) ∧
    (∀ s un em pw salt now, User.findByEmail s em = none →
       User.findByUsername s un = none →
       (∃ b, (register s un em pw salt now).1 = Resp.ok 201 b) ∧
       countByEmail (register s un em pw salt now).2 em = 1 ∧
       (∀ un₂ pw₂ salt₂ now₂,
          register (register s un em pw salt now).2 un₂ em pw₂ salt₂ now₂ =
            (.err 400 "User already exists" "A user with this email already exists",
             (register s un em pw salt now).2))) ∧
    (∀ s c idStr b salt now un ex,
       (c.role = "admin" ∨ parseIntJS idStr = some (c.userId : Int)) →
       b.username = some un → un ≠ "" →
       User.findByUsername s un = some ex →
       parseIntJS idStr ≠ some (ex.id : Int) →
       updateUser s c idStr b salt now =
         (.err 400 "Username already exists" "A user with this username already exists", s)) ∧
    (∀ s c idStr b salt now em ex,
       (c.role = "admin" ∨ parseIntJS idStr = some (c.userId : Int)) →
       b.username = none → b.email = some em → em ≠ "" →
       User.findByEmail s em = some ex →
       parseIntJS idStr ≠ some (ex.id : Int) →
       updateUser s c idStr b salt now =
         (.err 400 "Email already exists" "A user with this email already exists", s)) := by
  refine ⟨?_, ?_, ?_, ?_, ?_⟩
  · intro s un em pw salt now u h
    simp [register, h]
  · intro s un em pw salt now u h1 h2
    simp [register, h1, h2]
  · intro s un em pw salt now h1 h2
    have hreg : register s un em pw salt now =
        (.ok 201 ⟨"User registered successfully",
           ⟨s.nextUserId, un, "user"⟩,
           (PublicUser.mk s.nextUserId un em "user" now none).toObj⟩,
         ⟨s.users ++ [⟨s.nextUserId, un, em, bcryptHash salt pw, "user", now, none⟩],
          s.nextUserId + 1⟩) := by
      simp [register, h1, h2, User.create, UserRec.toPublic]
    have h1' : s.users.find? (fun u => u.email == em) = none := h1
    refine ⟨⟨_, by rw [hreg]⟩, ?_, ?_⟩
    · rw [hreg]
      have hnil : s.users.filter (fun u => u.email == em) = [] := by
        rw [List.filter_eq_nil_iff]
        intro a ha
        simpa using List.find?_eq_none.mp h1' a ha
      simp [countByEmail, List.filter_append, hnil]
    · intro un₂ pw₂ salt₂ now₂
      rw [hreg]
      have hfind : User.findByEmail
          ⟨s.users ++ [⟨s.nextUserId, un, em, bcryptHash salt pw, "user", now, none⟩],
           s.nextUserId + 1⟩ em =
          some ⟨s.nextUserId, un, em, bcryptHash salt pw, "user", now, none⟩ := by
        unfold User.findByEmail
        rw [find?_append_of_none _ h1']
        simp
      simp [register, hfind]
  · intro s c idStr b salt now un ex hauth hbu hne hfind hid
    have h1 : ¬ (c.role ≠ "admin" ∧ parseIntJS idStr ≠ some (c.userId : Int)) := by
      rcases hauth with h | h <;> simp [h]
    have htr : truthyS b.username = true := by simp [truthyS, hbu, hne]
    have hcl : usernameClash s (parseIntJS idStr) (b.username.getD "") = true := by
      simp [usernameClash, hbu, hfind]
      simpa using hid
    simp [updateUser, if_neg h1, htr, hcl]
  · intro s c idStr b salt now em ex hauth hbu hbe hne hfind hid
    have h1 : ¬ (c.role ≠ "admin" ∧ parseIntJS idStr ≠ some (c.userId : Int)) := by
      rcases hauth with h | h <;> simp [h]
    have htr : truthyS b.username = false := by simp [truthyS, hbu]
    have hte : truthyS b.email = true := by simp [truthyS, hbe, hne]
    have hcl : emailClash s (parseIntJS idStr) (b.email.getD "") = true := by
      simp [emailClash, hbe, hfind]
      simpa using hid
    simp [updateUser, if_neg h1, htr, hte, hcl]

/-- Witness for C4: registering `alice@x.com` on the seeded store stores one
record for that email and a repeat registration with a different username is
rejected with the email conflict, leaving the store as it was. -/
theorem uniqueness_of_email_and_username_witness :
    (∃ b, (register initialStore "alice" "alice@x.com" "Secret123" "sAlice" 1).1 =
       Resp.ok 201 b) ∧
    countByEmail (register initialStore "alice" "alice@x.com" "Secret123" "sAlice" 1).2
      "alice@x.com" = 1 ∧
    (∀ un₂ pw₂ salt₂ now₂,
       register (register initialStore "alice" "alice@x.com" "Secret123" "sAlice" 1).2
           un₂ "alice@x.com" pw₂ salt₂ now₂ =
         (.err 400 "User already exists" "A user with this email already exists",
          (register initialStore "alice" "alice@x.com" "Secret123" "sAlice" 1).2)) :=
  uniqueness_of_email_and_username.2.2.1 initialStore "alice" "alice@x.com"
    "Secret123" "sAlice" 1 (by decide) (by decide)

/-- For non-negative bounds `a` and `a + c`, the JS slice is Lean's
`drop`/`take`. -/
theorem jsSlice_eq_drop_take {α : Type} (l : List α) (a c : Nat) :
    jsSlice l (a : Int) ((a + c : Nat) : Int) = (l.drop a).take c := by
  have ha : ¬ ((a : Int) < 0) := by omega
  have hac : ¬ (((a + c : Nat) : Int) < 0) := by omega
  simp only [jsSlice, if_neg ha, if_neg hac]
  rw [← Nat.cast_min, ← Nat.cast_min, Int.toNat_ofNat, Int.toNat_ofNat,
      List.take_drop]
  rcases Nat.le_total (a + c) l.length with h | h
  · rw [min_eq_left h, min_eq_left (le_trans (Nat.le_add_right a c) h)]
  · rw [min_eq_right h, List.take_of_length_le h, List.take_length]
    rcases Nat.le_total a l.length with h2 | h2
    · rw [min_eq_left h2]
    · rw [min_eq_right h2, List.drop_eq_nil_of_le (Nat.le_refl _),
          List.drop_eq_nil_of_le h2]

/-- Claim C8: for an admin requester and in-domain query values
(`page ≥ 1`, `limit ≥ 1`, the documented minimums), `GET /users` returns
200 with the slice `[(page-1)*limit, (page-1)*limit + limit)` of the user
list together with the total count, and an out-of-range page yields an
empty slice rather than an error. -/
theorem listUsers_pagination (s : Store) (c : Claims)
    (pageQ limitQ : Option String) (page limit : Nat)
    (hadm : c.role = "admin")
    (hp : parseIntQ pageQ = some (page : Int))
    (hl : parseIntQ limitQ = some (limit : Int))
    (hp1 : 1 ≤ page) (hl1 : 1 ≤ limit) :
    listUsers s c pageQ limitQ =
      .ok 200 ⟨((User.findAll s).drop ((page - 1) * limit)).take limit,
               (page : Int), (limit : Int), (User.findAll s).length,
               ceilDivJS (User.findAll s).length (limit : Int)⟩ ∧
    ((User.findAll s).length ≤ (page - 1) * limit →
       ((User.findAll s).drop ((page - 1) * limit)).take limit = []) := by
  constructor
  · have hpz : ((page : Int) ≠ 0) := by omega
    have hlz : ((limit : Int) ≠ 0) := by omega
    have hpage : jsOrInt (parseIntQ pageQ) 1 = (page : Int) := by
      rw [hp]; simp [jsOrInt, hpz]
    have hlimit : jsOrInt (parseIntQ limitQ) 10 = (limit : Int) := by
      rw [hl]; simp [jsOrInt, hlz]
    have hne : ¬ (c.role ≠ "admin") := by simp [hadm]
    have key : ((page : Int) - 1) * (limit : Int) =
        (((page - 1) * limit : Nat) : Int) := by
      push_cast [Nat.cast_sub hp1]
      ring
    have key2 : (page : Int) * (limit : Int) =
        ((((page - 1) * limit + limit) : Nat) : Int) := by
      push_cast [Nat.cast_sub hp1]
      ring
    simp only [listUsers, if_neg hne, hpage, hlimit]
    rw [key, key2, jsSlice_eq_drop_take]
  · intro h
    simp [List.drop_eq_nil_of_le h]

/-- Witness for C8: the seeded one-user store, first page, default-size
limit. -/
theorem listUsers_pagination_witness :
    listUsers initialStore ⟨1, "admin", "admin"⟩ (some "1") (some "10") =
      .ok 200 ⟨((User.findAll initialStore).drop ((1 - 1) * 10)).take 10,
               ((1 : Nat) : Int), ((10 : Nat) : Int),
               (User.findAll initialStore).length,
               ceilDivJS (User.findAll initialStore).length ((10 : Nat) : Int)⟩ ∧
    ((User.findAll initialStore).length ≤ (1 - 1) * 10 →
       ((User.findAll initialStore).drop ((1 - 1) * 10)).take 10 = []) :=
  listUsers_pagination initialStore ⟨1, "admin", "admin"⟩ (some "1") (some "10")
    1 10 rfl (by decide) (by decide) (by decide) (by decide)
